import Mathlib

/-!
Shallow embedding of the crumb bread-calculator engine
(`src/utils/breadMath.ts` together with `src/utils/constants.ts` and the
domain types of `src/types/index.ts`), plus theorems settling the frozen
claims about it.

Modelling conventions:
* JavaScript numbers are modelled by exact arithmetic: masses, percentages
  and temperatures live in `ℚ`; quantities produced by `Math.round` are
  integers and are typed `ℤ` where the code only ever uses them as whole
  minutes / whole degrees.  IEEE-754 rounding error is not modelled.
* `Math.round x` in JavaScript is `⌊x + 1/2⌋`, which is exactly Mathlib's
  `round`.
* `Math.pow(2, x)` and `Math.log10` are transcendental, so the fermentation
  time calculators go through `ℝ` (`Real.rpow`, `Real.logb`) and are
  `noncomputable`; everything else is computable.
* Two source identifiers are renamed (`*_RATIO` → `*_FRAC`, `yeastRatio` →
  `yeastRat`) purely for local naming-convention reasons; the values and
  their uses are unchanged.
-/

namespace Crumb

/-! ### Domain types (src/types/index.ts) -/

inductive Method where
  | DIRECT
  | BIGA
  | POOLISH
deriving DecidableEq

inductive MixerType where
  | HAND
  | KITCHENAID
deriving DecidableEq

inductive PrefermentStorage where
  | FRIDGE
  | ROOM
deriving DecidableEq

structure RecipeInputs where
  method : Method
  totalFlour : ℚ
  targetHydration : ℚ
  mixer : MixerType
  roomTemp : ℚ
  fermentationSpeed : ℚ
  prefermentStorage : PrefermentStorage

structure Preferment where
  flour : ℚ
  water : ℚ
  yeast : ℚ
deriving DecidableEq

structure FinalDough where
  flour : ℚ
  water : ℚ
  salt : ℚ
  yeast : ℚ
deriving DecidableEq

structure RecipeOutput where
  flourTotal : ℚ
  waterTotal : ℚ
  salt : ℚ
  yeast : ℚ
  preferment : Option Preferment
  finalDough : FinalDough
  calculatedWaterTemp : ℤ
  estimatedBulkTime : ℤ
  estimatedProofTime : ℤ
  prefermentTime : ℤ
  totalTime : ℤ

inductive StepCategory where
  | prep
  | mix
  | bulk
  | shape
  | proofing
  | bake
deriving DecidableEq

structure Step where
  id : String
  time : String
  title : String
  description : String
  critical : Bool
  duration : Option ℚ
  category : StepCategory
deriving DecidableEq

/-! ### Constants (src/utils/constants.ts) -/

namespace CONSTANTS

def TARGET_DDT : ℚ := 24

def FRICTION_HAND : ℚ := 2

def FRICTION_MIXER : ℚ := 12

/-- source name: `BIGA_FLOUR_RATIO` -/
def BIGA_FLOUR_FRAC : ℚ := 0.30

def BIGA_HYDRATION : ℚ := 0.50

/-- source name: `POOLISH_FLOUR_RATIO` -/
def POOLISH_FLOUR_FRAC : ℚ := 0.30

def POOLISH_HYDRATION : ℚ := 1.00

def FRESH_YEAST_BASE : ℚ := 1.5

def BIGA_YEAST_PERCENT : ℚ := 1.0

def POOLISH_YEAST_PERCENT : ℚ := 0.1

def SALT_PERCENT : ℚ := 2.0

def TEMP_COEFFICIENT : ℚ := 8

def FRIDGE_TEMP : ℚ := 4

def BASE_BULK_TIME : ℚ := 120

def BASE_PREFERMENT_TIME : ℚ := 8 * 60

def HIGH_HYDRATION_THRESHOLD : ℚ := 75

def HIGH_HYDRATION_FRICTION_REDUCTION : ℚ := 2

def HIGH_HYDRATION_YEAST_REDUCTION : ℚ := 0.10

def HYDRATION_BASELINE : ℚ := 65

def HYDRATION_EFFECT_COEFFICIENT : ℚ := 0.015

def MAX_HYDRATION_EFFECT : ℚ := 0.30

/-- source name: `PROOF_TO_BULK_RATIO` -/
def PROOF_TO_BULK_FRAC : ℚ := 0.50

def MIN_PROOF_TIME : ℤ := 30

def MAX_PROOF_TIME : ℤ := 120

namespace STEP_DURATIONS

def AUTOLYSE : ℤ := 45

def MIX_HAND : ℤ := 15

def MIX_MACHINE : ℤ := 12

def PRESHAPE_REST : ℤ := 20

def FINAL_SHAPE : ℤ := 5

def PREHEAT_OVERLAP : ℤ := 0

def BAKE_COVERED : ℤ := 22

def BAKE_UNCOVERED : ℤ := 22

def COOL : ℤ := 60

end STEP_DURATIONS

end CONSTANTS

/-! ### Scalar calculators (src/utils/breadMath.ts) -/

/-- `calculateFriction` -/
def calculateFriction (mixer : MixerType) (hydration : ℚ) : ℚ :=
  let baseFriction :=
    match mixer with
    | MixerType.HAND => CONSTANTS.FRICTION_HAND
    | MixerType.KITCHENAID => CONSTANTS.FRICTION_MIXER
  if hydration > CONSTANTS.HIGH_HYDRATION_THRESHOLD then
    max 0 (baseFriction - CONSTANTS.HIGH_HYDRATION_FRICTION_REDUCTION)
  else
    baseFriction

/-- `calculateWaterTemp`: Rule of 3 (direct) / Rule of 4 (indirect), then
rounded and clamped into [0, 40]. -/
def calculateWaterTemp (inputs : RecipeInputs) : ℤ :=
  let friction := calculateFriction inputs.mixer inputs.targetHydration
  let flourTemp := inputs.roomTemp
  let waterTemp : ℚ :=
    match inputs.method with
    | Method.DIRECT =>
        CONSTANTS.TARGET_DDT * 3 - inputs.roomTemp - flourTemp - friction
    | _ =>
        let prefermentTemp :=
          match inputs.prefermentStorage with
          | PrefermentStorage.FRIDGE => CONSTANTS.FRIDGE_TEMP
          | PrefermentStorage.ROOM => inputs.roomTemp
        CONSTANTS.TARGET_DDT * 4 - inputs.roomTemp - flourTemp - friction - prefermentTemp
  round (max 0 (min 40 waterTemp))

/-- `calculateYeast` (grams, rounded to one decimal) -/
def calculateYeast (totalFlour fermentationSpeed hydration : ℚ) : ℚ :=
  let yeastPercent := CONSTANTS.FRESH_YEAST_BASE * fermentationSpeed
  let yeastPercent :=
    if hydration > CONSTANTS.HIGH_HYDRATION_THRESHOLD then
      yeastPercent * (1 - CONSTANTS.HIGH_HYDRATION_YEAST_REDUCTION)
    else yeastPercent
  (round (totalFlour * yeastPercent / 100 * 10) : ℚ) / 10

/-- `calculatePreferment` -/
def calculatePreferment (method : Method) (totalFlour : ℚ) : Option Preferment :=
  if method = Method.DIRECT then none
  else
    let flourFrac :=
      if method = Method.BIGA then CONSTANTS.BIGA_FLOUR_FRAC
      else CONSTANTS.POOLISH_FLOUR_FRAC
    let hydration :=
      if method = Method.BIGA then CONSTANTS.BIGA_HYDRATION
      else CONSTANTS.POOLISH_HYDRATION
    let yeastPercent :=
      if method = Method.BIGA then CONSTANTS.BIGA_YEAST_PERCENT
      else CONSTANTS.POOLISH_YEAST_PERCENT
    let prefermentFlour : ℚ := round (totalFlour * flourFrac)
    let prefermentWater : ℚ := round (prefermentFlour * hydration)
    let prefermentYeast : ℚ := (round (prefermentFlour * yeastPercent / 100 * 10) : ℚ) / 10
    some { flour := prefermentFlour, water := prefermentWater, yeast := prefermentYeast }

/-- `calculateHydrationFactor` -/
def calculateHydrationFactor (hydration : ℚ) : ℚ :=
  let hydrationDiff := hydration - CONSTANTS.HYDRATION_BASELINE
  if hydrationDiff ≤ 0 then
    1 + min 0.15 (|hydrationDiff| * 0.01)
  else
    1 - min CONSTANTS.MAX_HYDRATION_EFFECT (hydrationDiff * CONSTANTS.HYDRATION_EFFECT_COEFFICIENT)

/-- `calculateBulkTime`: `round(120 · 2^(-(roomTemp-24)/8) · hydrationFactor · (1/speed))`.
Goes through `ℝ` because of `Math.pow(2, ·)`. -/
noncomputable def calculateBulkTime (roomTemp fermentationSpeed hydration : ℚ) : ℤ :=
  let tempDiff : ℚ := roomTemp - CONSTANTS.TARGET_DDT
  let tempFactor : ℝ := (2 : ℝ) ^ (-(tempDiff : ℝ) / (CONSTANTS.TEMP_COEFFICIENT : ℝ))
  let speedFactor : ℚ := 1 / fermentationSpeed
  let hydrationFactor := calculateHydrationFactor hydration
  round ((CONSTANTS.BASE_BULK_TIME : ℝ) * tempFactor * (hydrationFactor : ℝ) * (speedFactor : ℝ))

/-- `calculateProofTime`: half the bulk time, clamped into [30, 120]. -/
def calculateProofTime (bulkTime : ℤ) : ℤ :=
  let proofTime : ℤ := round ((bulkTime : ℚ) * CONSTANTS.PROOF_TO_BULK_FRAC)
  max CONSTANTS.MIN_PROOF_TIME (min CONSTANTS.MAX_PROOF_TIME proofTime)

/-- `calculatePrefermentTime`.  The TypeScript signature restricts `method` to
`'BIGA' | 'POOLISH'`; here the full `Method` type is taken and, exactly as in
the source's ternaries, every non-`BIGA` method is treated like `POOLISH`.
Goes through `ℝ` because of `Math.pow(2, ·)` and `Math.log10`. -/
noncomputable def calculatePrefermentTime (method : Method) (roomTemp : ℚ)
    (prefermentStorage : PrefermentStorage) : ℤ :=
  let storageTemp : ℚ :=
    match prefermentStorage with
    | PrefermentStorage.FRIDGE => CONSTANTS.FRIDGE_TEMP
    | PrefermentStorage.ROOM => roomTemp
  let tempDiff : ℚ := storageTemp - CONSTANTS.TARGET_DDT
  let tempFactor : ℝ := (2 : ℝ) ^ (-(tempDiff : ℝ) / (CONSTANTS.TEMP_COEFFICIENT : ℝ))
  let yeastPercent : ℚ :=
    if method = Method.BIGA then CONSTANTS.BIGA_YEAST_PERCENT
    else CONSTANTS.POOLISH_YEAST_PERCENT
  -- source name: `yeastRatio`
  let yeastRat : ℚ := CONSTANTS.BIGA_YEAST_PERCENT / yeastPercent
  let yeastFactor : ℝ := 1 + Real.logb 10 (yeastRat : ℝ) * 0.5
  let prefermentTime : ℝ := (CONSTANTS.BASE_PREFERMENT_TIME : ℝ) * tempFactor * yeastFactor
  let prefermentTime : ℝ :=
    match prefermentStorage with
    | PrefermentStorage.FRIDGE =>
        let maxFridgeTime : ℚ := if method = Method.BIGA then 16 * 60 else 24 * 60
        min prefermentTime (maxFridgeTime : ℝ)
    | PrefermentStorage.ROOM => prefermentTime
  round prefermentTime

/-- `calculateTotalTime` -/
def calculateTotalTime (bulkTime proofTime prefermentTime : ℤ) (mixer : MixerType)
    (isHighHydration isIndirect : Bool) : ℤ :=
  let t0 : ℤ := 0
  let t1 := if isIndirect then t0 + prefermentTime else t0
  let t2 := if isHighHydration then t1 + CONSTANTS.STEP_DURATIONS.AUTOLYSE else t1
  let t3 := t2 + (match mixer with
    | MixerType.HAND => CONSTANTS.STEP_DURATIONS.MIX_HAND
    | MixerType.KITCHENAID => CONSTANTS.STEP_DURATIONS.MIX_MACHINE)
  let t4 := t3 + bulkTime
  let t5 := t4 + CONSTANTS.STEP_DURATIONS.PRESHAPE_REST
  let t6 := t5 + CONSTANTS.STEP_DURATIONS.FINAL_SHAPE
  let t7 := t6 + proofTime
  let t8 := t7 + CONSTANTS.STEP_DURATIONS.BAKE_COVERED
  let t9 := t8 + CONSTANTS.STEP_DURATIONS.BAKE_UNCOVERED
  t9 + CONSTANTS.STEP_DURATIONS.COOL

/-- `calculateRecipe` (the aggregator) -/
noncomputable def calculateRecipe (inputs : RecipeInputs) : RecipeOutput :=
  let waterTotal : ℚ := round (inputs.totalFlour * (inputs.targetHydration / 100))
  let salt : ℚ := round (inputs.totalFlour * (CONSTANTS.SALT_PERCENT / 100))
  let totalYeast : ℚ :=
    calculateYeast inputs.totalFlour inputs.fermentationSpeed inputs.targetHydration
  let preferment := calculatePreferment inputs.method inputs.totalFlour
  let finalDough : FinalDough :=
    match preferment with
    | some p =>
        let remainingFlour := inputs.totalFlour - p.flour
        let remainingWater := waterTotal - p.water
        let kickYeast := max 0 ((round ((totalYeast - p.yeast) * 10) : ℚ) / 10)
        { flour := remainingFlour, water := remainingWater, salt := salt, yeast := kickYeast }
    | none =>
        { flour := inputs.totalFlour, water := waterTotal, salt := salt, yeast := totalYeast }
  let calculatedWaterTemp := calculateWaterTemp inputs
  let estimatedBulkTime :=
    calculateBulkTime inputs.roomTemp inputs.fermentationSpeed inputs.targetHydration
  let estimatedProofTime := calculateProofTime estimatedBulkTime
  let isIndirect := inputs.method ≠ Method.DIRECT
  let prefermentTime : ℤ :=
    if isIndirect then
      calculatePrefermentTime inputs.method inputs.roomTemp inputs.prefermentStorage
    else 0
  let isHighHydration := inputs.targetHydration > CONSTANTS.HIGH_HYDRATION_THRESHOLD
  let totalTime := calculateTotalTime estimatedBulkTime estimatedProofTime prefermentTime
    inputs.mixer (decide isHighHydration) (decide isIndirect)
  { flourTotal := inputs.totalFlour
    waterTotal := waterTotal
    salt := salt
    yeast := totalYeast
    preferment := preferment
    finalDough := finalDough
    calculatedWaterTemp := calculatedWaterTemp
    estimatedBulkTime := estimatedBulkTime
    estimatedProofTime := estimatedProofTime
    prefermentTime := prefermentTime
    totalTime := totalTime }

/-! ### Step generation (src/utils/breadMath.ts, `generateSteps`) -/

/-- Rendering of a JavaScript number inside a template literal.  The exact
digit string JavaScript produces is immaterial to every claim (descriptions
are never inspected), so the default `ℚ` rendering is used. -/
def numStr (q : ℚ) : String := toString q

/-- The `addStep` closure of `generateSteps`: appends a step carrying the next
sequential id and bumps the counter.  The source's default arguments
(`critical = false`, `duration` absent) are passed explicitly at call sites. -/
def addStep (st : List Step × ℕ) (title description : String) (category : StepCategory)
    (critical : Bool) (duration : Option ℚ) : List Step × ℕ :=
  (st.1 ++ [{ id := "step-" ++ toString st.2
              time := ""
              title := title
              description := description
              critical := critical
              duration := duration
              category := category }],
   st.2 + 1)

/-- `generateSteps`.  The source mutates a `steps` array and a `stepId`
counter through the `addStep` closure; here that state is threaded
explicitly, in the same order.  The `for i = 1..foldCount` loop is a fold
over `List.range' 1 foldCount`. -/
def generateSteps (inputs : RecipeInputs) (output : RecipeOutput) : List Step :=
  let isHighHydration := inputs.targetHydration > CONSTANTS.HIGH_HYDRATION_THRESHOLD
  let isIndirect := inputs.method ≠ Method.DIRECT
  let st0 : List Step × ℕ := ([], 1)
  -- === PREFERMENT PREPARATION (If Indirect) ===
  let st1 :=
    if isIndirect then
      match output.preferment with
      | some p =>
          let prefermentName := if inputs.method = Method.BIGA then "Biga" else "Poolish"
          let prefermentHydration := if inputs.method = Method.BIGA then "50%" else "100%"
          addStep st0 (s!"Prepare {prefermentName}")
            (s!"Mix {numStr p.flour}g flour with {numStr p.water}g water ({prefermentHydration} hydration) and {numStr p.yeast}g yeast. Cover and let ferment for 8-16 hours.")
            StepCategory.prep true none
      | none => st0
    else st0
  -- === MIXING PHASE ===
  let st2 :=
    if isHighHydration then
      let autolyseWater : ℚ := round (output.finalDough.water * 0.9)
      let bassinageWater : ℚ := round (output.finalDough.water * 0.1)
      let a1 := addStep st1 "Autolyse"
        (s!"Mix {numStr output.finalDough.flour}g flour with {numStr autolyseWater}g water (reserve 10% for bassinage). Let rest for 30-60 minutes.")
        StepCategory.mix false (some 45)
      let a2 := addStep a1 "Add Salt & Yeast"
        (s!"Sprinkle {numStr output.finalDough.salt}g salt and {numStr output.finalDough.yeast}g yeast over the dough. Pinch and fold to incorporate.")
        StepCategory.mix false none
      addStep a2 "Bassinage"
        (s!"Gradually incorporate the reserved {numStr bassinageWater}g water using the slap and fold technique.")
        StepCategory.mix true none
    else
      let m1 :=
        if isIndirect then
          let matureName := if inputs.method = Method.BIGA then "Biga" else "Poolish"
          addStep st1 "Combine Final Dough"
            (s!"Add the mature {matureName} to {numStr output.finalDough.flour}g flour. Mix in {numStr output.finalDough.water}g water at {toString output.calculatedWaterTemp}°C.")
            StepCategory.mix false none
        else
          addStep st1 "Mix Ingredients"
            (s!"Combine {numStr output.flourTotal}g flour with {numStr output.waterTotal}g water at {toString output.calculatedWaterTemp}°C. Add {numStr output.salt}g salt and {numStr output.yeast}g yeast.")
            StepCategory.mix false none
      match inputs.mixer with
      | MixerType.KITCHENAID =>
          addStep m1 "Machine Knead"
            "Mix on low speed (1-2) for 3 minutes to combine. Increase to medium (4) and knead for 8-10 minutes until smooth and elastic."
            StepCategory.mix false (some 12)
      | MixerType.HAND =>
          addStep m1 "Hand Knead"
            "Turn out onto a clean surface. Knead using stretch and fold technique for 10-15 minutes until the dough passes the windowpane test."
            StepCategory.mix false (some 15)
  -- === BULK FERMENTATION ===
  let bulkTime := output.estimatedBulkTime
  let st3 :=
    if isHighHydration then
      let foldCount : ℕ := 4
      let foldInterval : ℚ := (round ((bulkTime : ℚ) / (foldCount + 1)) : ℤ)
      let b1 := addStep st2 "Begin Bulk Fermentation"
        "Place dough in a lightly oiled container. Cover and rest at room temperature."
        StepCategory.bulk false none
      -- the source's `for (let i = 1; i <= foldCount; i++)` loop, with
      -- `foldCount = 4`, iterates over the indices 1, 2, 3, 4
      let b2 := ([1, 2, 3, 4] : List ℕ).foldl (fun st i =>
        addStep st (s!"Coil Fold {i}")
          "Gently lift dough from center, letting edges fold underneath. Rotate 90° and repeat. Cover and rest."
          StepCategory.bulk (decide (i = 1)) (some foldInterval)) b1
      addStep b2 "Complete Bulk Fermentation"
        "Let dough rest undisturbed until increased by 50-75%. Look for bubbles and a domed surface."
        StepCategory.bulk true (some foldInterval)
    else
      let b1 := addStep st2 "Bulk Fermentation"
        (s!"Cover dough and let rise at room temperature for approximately {toString bulkTime} minutes until doubled in size.")
        StepCategory.bulk true (some (bulkTime : ℚ))
      addStep b1 "Stretch & Fold (Optional)"
        "Perform one set of stretch and folds halfway through bulk if desired for additional strength."
        StepCategory.bulk false none
  -- === SHAPING ===
  let st4 := addStep st3 "Pre-shape"
    "Gently turn dough onto a lightly floured surface. Pre-shape into a round using a bench scraper. Rest 15-20 minutes."
    StepCategory.shape false (some 20)
  let st5 := addStep st4 "Final Shape"
    "Shape into your desired form (boule, batard, or loaf). Create surface tension by pulling dough towards you."
    StepCategory.shape true none
  -- === PROOF ===
  let st6 := addStep st5 "Final Proof"
    (s!"Place shaped dough in a banneton or loaf pan. Proof at room temperature for approximately {toString output.estimatedProofTime} minutes. Watch for 50-75% size increase.")
    StepCategory.proofing false (some (output.estimatedProofTime : ℚ))
  let st7 := addStep st6 "Preheat Oven"
    "Preheat oven to 250°C (480°F) with a Dutch oven or baking stone inside for at least 45 minutes."
    StepCategory.proofing true (some 45)
  -- === BAKE ===
  let st8 := addStep st7 "Score & Load"
    "Score the top of your loaf with a sharp blade or lame. Carefully transfer to the preheated Dutch oven or stone."
    StepCategory.bake true none
  let st9 := addStep st8 "Bake (Covered)"
    "Bake covered at 250°C for 20-25 minutes to create steam for oven spring."
    StepCategory.bake false (some 22)
  let st10 := addStep st9 "Bake (Uncovered)"
    "Remove lid and reduce temp to 230°C (445°F). Bake for 20-25 more minutes until deep golden brown."
    StepCategory.bake false (some 22)
  let st11 := addStep st10 "Cool"
    "Remove from oven and let cool on a wire rack for at least 1 hour before slicing. Listen for the \"singing\" crust!"
    StepCategory.bake true (some 60)
  st11.1

/-! ### Helper lemmas -/

/-- `round` is monotone (JavaScript's `Math.round` is `⌊x + 1/2⌋`). -/
theorem round_mono' {α : Type} [LinearOrderedField α] [FloorRing α] {x y : α} (h : x ≤ y) :
    round x ≤ round y := by
  rw [round_eq, round_eq]
  exact Int.floor_le_floor (by linarith)

theorem round_nonneg' {α : Type} [LinearOrderedField α] [FloorRing α] {x : α} (h : 0 ≤ x) :
    0 ≤ round x := by
  have := round_mono' h (α := α)
  simpa using this

/-- Evaluation rule for `round` on `ℚ` (used because the kernel cannot reduce
`round` on `ℚ` through the classical order instances). -/
theorem round_int_eq (x : ℚ) (n : ℤ) (h1 : (n:ℚ) ≤ x + 1/2) (h2 : x + 1/2 < (n:ℚ) + 1) :
    round x = n := by
  rw [round_eq]
  exact Int.floor_eq_iff.mpr ⟨h1, by exact_mod_cast h2⟩

/-- The hydration factor never drops below `1 - 0.30`. -/
theorem calculateHydrationFactor_lb (h : ℚ) : 7/10 ≤ calculateHydrationFactor h := by
  unfold calculateHydrationFactor
  dsimp only
  split
  · have : (0:ℚ) ≤ min 0.15 (|h - CONSTANTS.HYDRATION_BASELINE| * 0.01) :=
      le_min (by norm_num) (by positivity)
    norm_num
    nlinarith [abs_nonneg (h - CONSTANTS.HYDRATION_BASELINE)]
  · have : min CONSTANTS.MAX_HYDRATION_EFFECT
        ((h - CONSTANTS.HYDRATION_BASELINE) * CONSTANTS.HYDRATION_EFFECT_COEFFICIENT)
        ≤ 3/10 := le_trans (min_le_left _ _) (by norm_num [CONSTANTS.MAX_HYDRATION_EFFECT])
    linarith

/-- The hydration factor never exceeds `1 + 0.15`. -/
theorem calculateHydrationFactor_ub (h : ℚ) : calculateHydrationFactor h ≤ 23/20 := by
  unfold calculateHydrationFactor
  dsimp only
  split
  · have : min 0.15 (|h - CONSTANTS.HYDRATION_BASELINE| * 0.01) ≤ 3/20 :=
      le_trans (min_le_left _ _) (by norm_num)
    linarith
  · rename_i hd
    have h1 : (0:ℚ) ≤ (h - CONSTANTS.HYDRATION_BASELINE) * CONSTANTS.HYDRATION_EFFECT_COEFFICIENT := by
      unfold CONSTANTS.HYDRATION_EFFECT_COEFFICIENT
      nlinarith [not_le.mp hd]
    have : (0:ℚ) ≤ min CONSTANTS.MAX_HYDRATION_EFFECT
        ((h - CONSTANTS.HYDRATION_BASELINE) * CONSTANTS.HYDRATION_EFFECT_COEFFICIENT) :=
      le_min (by norm_num [CONSTANTS.MAX_HYDRATION_EFFECT]) h1
    linarith

/-! ### Claims -/

/-- C1: for every `RecipeInputs`, the output of `calculateRecipe` satisfies
`finalDough.flour + (preferment's flour, or 0 when absent) = flourTotal`, and
the `preferment` field is present if and only if the method is not `DIRECT`. -/
theorem calculateRecipe_flour_conservation (inputs : RecipeInputs) :
    (calculateRecipe inputs).finalDough.flour
        + (((calculateRecipe inputs).preferment).map Preferment.flour).getD 0
      = (calculateRecipe inputs).flourTotal
    ∧ ((calculateRecipe inputs).preferment.isSome ↔ inputs.method ≠ Method.DIRECT) := by
  rcases inputs with ⟨m, f, h, mx, T, s, ps⟩
  cases m <;>
    simp [calculateRecipe, calculatePreferment]

/-- C2: for every `RecipeInputs`, `calculateWaterTemp` returns an integer in
the closed interval `[0, 40]` (the result type is `ℤ`; the bounds come from
the clamp applied before rounding). -/
theorem calculateWaterTemp_mem_Icc (inputs : RecipeInputs) :
    0 ≤ calculateWaterTemp inputs ∧ calculateWaterTemp inputs ≤ 40 := by
  have key : ∀ q : ℚ, 0 ≤ round (max 0 (min 40 q)) ∧ round (max 0 (min 40 q)) ≤ 40 := by
    intro q
    constructor
    · exact round_nonneg' (le_max_left _ _)
    · have hle : max 0 (min 40 q) ≤ (40:ℚ) :=
        max_le (by norm_num) (min_le_left _ _)
      have := round_mono' hle
      simpa using this
  unfold calculateWaterTemp
  exact key _

/-- C7: `calculateTotalTime` with mixer `HAND`, no high hydration and no
indirect method is the explicit sum `15 + bulk + 20 + 5 + proof + 22 + 22 + 60`;
turning on the indirect flag adds exactly `prefermentTime`; turning on high
hydration adds exactly 45; switching the mixer to `KITCHENAID` subtracts
exactly 3. -/
theorem calculateTotalTime_spec (bulkTime proofTime prefermentTime : ℤ)
    (hb : 0 ≤ bulkTime) (hp : 0 ≤ proofTime) (hq : 0 ≤ prefermentTime) :
    calculateTotalTime bulkTime proofTime prefermentTime MixerType.HAND false false
        = 15 + bulkTime + 20 + 5 + proofTime + 22 + 22 + 60
    ∧ calculateTotalTime bulkTime proofTime prefermentTime MixerType.HAND false true
        = calculateTotalTime bulkTime proofTime prefermentTime MixerType.HAND false false
          + prefermentTime
    ∧ calculateTotalTime bulkTime proofTime prefermentTime MixerType.HAND true false
        = calculateTotalTime bulkTime proofTime prefermentTime MixerType.HAND false false + 45
    ∧ calculateTotalTime bulkTime proofTime prefermentTime MixerType.KITCHENAID false false
        = calculateTotalTime bulkTime proofTime prefermentTime MixerType.HAND false false - 3 := by
  unfold calculateTotalTime
  simp [CONSTANTS.STEP_DURATIONS.MIX_HAND, CONSTANTS.STEP_DURATIONS.MIX_MACHINE,
    CONSTANTS.STEP_DURATIONS.AUTOLYSE, CONSTANTS.STEP_DURATIONS.PRESHAPE_REST,
    CONSTANTS.STEP_DURATIONS.FINAL_SHAPE, CONSTANTS.STEP_DURATIONS.BAKE_COVERED,
    CONSTANTS.STEP_DURATIONS.BAKE_UNCOVERED, CONSTANTS.STEP_DURATIONS.COOL]
  omega

/-- Witness for C7 at `(bulk, proof, preferment) = (100, 60, 480)`. -/
theorem calculateTotalTime_spec_witness :
    calculateTotalTime 100 60 480 MixerType.HAND false false
        = 15 + 100 + 20 + 5 + 60 + 22 + 22 + 60
    ∧ calculateTotalTime 100 60 480 MixerType.HAND false true
        = calculateTotalTime 100 60 480 MixerType.HAND false false + 480
    ∧ calculateTotalTime 100 60 480 MixerType.HAND true false
        = calculateTotalTime 100 60 480 MixerType.HAND false false + 45
    ∧ calculateTotalTime 100 60 480 MixerType.KITCHENAID false false
        = calculateTotalTime 100 60 480 MixerType.HAND false false - 3 :=
  calculateTotalTime_spec 100 60 480 (by decide) (by decide) (by decide)

/-- Closed form of the hydration factor at or below the baseline. -/
theorem calculateHydrationFactor_of_le {h : ℚ} (hh : h ≤ 65) :
    calculateHydrationFactor h = 1 + min (3/20) ((65 - h) * (1/100)) := by
  unfold calculateHydrationFactor
  dsimp only
  rw [if_pos (by norm_num [CONSTANTS.HYDRATION_BASELINE]; linarith)]
  norm_num [CONSTANTS.HYDRATION_BASELINE, abs_of_nonpos (by linarith : h - 65 ≤ 0)]

/-- Closed form of the hydration factor above the baseline. -/
theorem calculateHydrationFactor_of_gt {h : ℚ} (hh : 65 < h) :
    calculateHydrationFactor h = 1 - min (3/10) ((h - 65) * (3/200)) := by
  unfold calculateHydrationFactor
  dsimp only
  rw [if_neg (by norm_num [CONSTANTS.HYDRATION_BASELINE]; linarith)]
  norm_num [CONSTANTS.HYDRATION_BASELINE, CONSTANTS.MAX_HYDRATION_EFFECT,
    CONSTANTS.HYDRATION_EFFECT_COEFFICIENT]

/-- C5 (counterexample): the claim asserts `calculateHydrationFactor` is
strictly decreasing for every hydration above 65, but the 30% cap makes it
constant from 85 on: at 86 and 87 (with `65 < 86 < 87`) it takes the same
value `7/10`. -/
theorem calculateHydrationFactor_constant_above_cap :
    calculateHydrationFactor 86 = 7/10 ∧ calculateHydrationFactor 87 = 7/10
    ∧ (65:ℚ) < 86 ∧ (86:ℚ) < 87 := by
  refine ⟨?_, ?_, by norm_num, by norm_num⟩ <;>
    · rw [calculateHydrationFactor_of_gt (by norm_num)]
      norm_num [min_eq_left]

/-- C5 (amended): `calculateHydrationFactor 65 = 1`; the factor is strictly
decreasing on `(65, 85]` and constant at `1 - 0.30` for hydration ≥ 85; below
the baseline its value exceeds 1 and it strictly increases as hydration
decreases on `[50, 65)`, and is constant at `1 + 0.15` for hydration ≤ 50;
everywhere the value lies within `[1 - 0.30, 1 + 0.15]`. -/
theorem calculateHydrationFactor_spec :
    calculateHydrationFactor 65 = 1
    ∧ (∀ h1 h2 : ℚ, 65 < h1 → h1 < h2 → h2 ≤ 85 →
        calculateHydrationFactor h2 < calculateHydrationFactor h1)
    ∧ (∀ h : ℚ, 85 ≤ h → calculateHydrationFactor h = 7/10)
    ∧ (∀ h1 h2 : ℚ, 50 ≤ h1 → h1 < h2 → h2 < 65 →
        calculateHydrationFactor h2 < calculateHydrationFactor h1)
    ∧ (∀ h : ℚ, h < 65 → 1 < calculateHydrationFactor h)
    ∧ (∀ h : ℚ, h ≤ 50 → calculateHydrationFactor h = 23/20)
    ∧ (∀ h : ℚ, 7/10 ≤ calculateHydrationFactor h ∧ calculateHydrationFactor h ≤ 23/20) := by
  refine ⟨?_, ?_, ?_, ?_, ?_, ?_, fun h => ⟨calculateHydrationFactor_lb h, calculateHydrationFactor_ub h⟩⟩
  · rw [calculateHydrationFactor_of_le (by norm_num)]
    norm_num
  · intro h1 h2 hl hm hr
    rw [calculateHydrationFactor_of_gt hl, calculateHydrationFactor_of_gt (hl.trans hm)]
    rw [min_eq_right (by linarith), min_eq_right (by linarith)]
    linarith
  · intro h hh
    rw [calculateHydrationFactor_of_gt (by linarith)]
    rw [min_eq_left (by linarith)]
    norm_num
  · intro h1 h2 hl hm hr
    rw [calculateHydrationFactor_of_le (by linarith), calculateHydrationFactor_of_le (by linarith)]
    rw [min_eq_right (by linarith), min_eq_right (by linarith)]
    linarith
  · intro h hh
    rw [calculateHydrationFactor_of_le (by linarith)]
    have : (0:ℚ) < min (3/20) ((65 - h) * (1/100)) :=
      lt_min (by norm_num) (by nlinarith)
    linarith
  · intro h hh
    rw [calculateHydrationFactor_of_le (by linarith)]
    rw [min_eq_left (by nlinarith)]
    norm_num

/-- Closed form of `calculatePreferment` for `BIGA`. -/
theorem calculatePreferment_BIGA (f : ℚ) :
    calculatePreferment Method.BIGA f =
      some { flour := (round (f * 0.30) : ℚ)
             water := (round ((round (f * 0.30) : ℚ) * 0.50) : ℚ)
             yeast := (round ((round (f * 0.30) : ℚ) * 1.0 / 100 * 10) : ℚ) / 10 } := by
  simp [calculatePreferment, CONSTANTS.BIGA_FLOUR_FRAC, CONSTANTS.BIGA_HYDRATION,
    CONSTANTS.BIGA_YEAST_PERCENT]

/-- Closed form of `calculatePreferment` for `POOLISH`. -/
theorem calculatePreferment_POOLISH (f : ℚ) :
    calculatePreferment Method.POOLISH f =
      some { flour := (round (f * 0.30) : ℚ)
             water := (round ((round (f * 0.30) : ℚ) * 1.00) : ℚ)
             yeast := (round ((round (f * 0.30) : ℚ) * 0.1 / 100 * 10) : ℚ) / 10 } := by
  simp [calculatePreferment, CONSTANTS.POOLISH_FLOUR_FRAC, CONSTANTS.POOLISH_HYDRATION,
    CONSTANTS.POOLISH_YEAST_PERCENT]

/-- C6 (counterexample): preferment flour is `round(0.30 × totalFlour)`, which
is not linear in the total flour: tripling 101 g to 303 g gives 91 g of
preferment flour, not `3 × 30 = 90` g. -/
theorem calculatePreferment_not_linear :
    calculatePreferment Method.BIGA 101 = some ⟨30, 15, 3/10⟩
    ∧ calculatePreferment Method.BIGA 303 = some ⟨91, 46, 9/10⟩
    ∧ (91:ℚ) ≠ 3 * 30 := by
  refine ⟨?_, ?_, by norm_num⟩
  · rw [calculatePreferment_BIGA]
    rw [round_int_eq ((101:ℚ) * 0.30) 30 (by norm_num) (by norm_num)]
    rw [round_int_eq (((30:ℤ):ℚ) * 0.50) 15 (by norm_num) (by norm_num)]
    rw [round_int_eq (((30:ℤ):ℚ) * 1.0 / 100 * 10) 3 (by norm_num) (by norm_num)]
    norm_num
  · rw [calculatePreferment_BIGA]
    rw [round_int_eq ((303:ℚ) * 0.30) 91 (by norm_num) (by norm_num)]
    rw [round_int_eq (((91:ℤ):ℚ) * 0.50) 46 (by norm_num) (by norm_num)]
    rw [round_int_eq (((91:ℤ):ℚ) * 1.0 / 100 * 10) 9 (by norm_num) (by norm_num)]
    norm_num

/-- C6 (amended): `calculatePreferment` is absent exactly for `DIRECT`; the
claimed concrete values at 500 g hold for `BIGA` and `POOLISH`; tripling the
total flour from 300 g to 900 g exactly triples the preferment flour
(90 g → 270 g); and in general the preferment flour equals `0.30 × totalFlour`
only up to the rounding to whole grams (within 1/2 g), rather than scaling
exactly linearly. -/
theorem calculatePreferment_spec :
    (∀ f : ℚ, calculatePreferment Method.DIRECT f = none)
    ∧ calculatePreferment Method.BIGA 500 = some ⟨150, 75, 3/2⟩
    ∧ calculatePreferment Method.POOLISH 500 = some ⟨150, 150, 1/5⟩
    ∧ calculatePreferment Method.BIGA 300 = some ⟨90, 45, 9/10⟩
    ∧ calculatePreferment Method.BIGA 900 = some ⟨270, 135, 27/10⟩
    ∧ (∀ (m : Method) (f : ℚ) (p : Preferment), calculatePreferment m f = some p →
        |p.flour - 3/10 * f| ≤ 1/2) := by
  refine ⟨fun f => rfl, ?_, ?_, ?_, ?_, ?_⟩
  · rw [calculatePreferment_BIGA]
    rw [round_int_eq ((500:ℚ) * 0.30) 150 (by norm_num) (by norm_num)]
    rw [round_int_eq (((150:ℤ):ℚ) * 0.50) 75 (by norm_num) (by norm_num)]
    rw [round_int_eq (((150:ℤ):ℚ) * 1.0 / 100 * 10) 15 (by norm_num) (by norm_num)]
    norm_num
  · rw [calculatePreferment_POOLISH]
    rw [round_int_eq ((500:ℚ) * 0.30) 150 (by norm_num) (by norm_num)]
    rw [round_int_eq (((150:ℤ):ℚ) * 1.00) 150 (by norm_num) (by norm_num)]
    rw [round_int_eq (((150:ℤ):ℚ) * 0.1 / 100 * 10) 2 (by norm_num) (by norm_num)]
    norm_num
  · rw [calculatePreferment_BIGA]
    rw [round_int_eq ((300:ℚ) * 0.30) 90 (by norm_num) (by norm_num)]
    rw [round_int_eq (((90:ℤ):ℚ) * 0.50) 45 (by norm_num) (by norm_num)]
    rw [round_int_eq (((90:ℤ):ℚ) * 1.0 / 100 * 10) 9 (by norm_num) (by norm_num)]
    norm_num
  · rw [calculatePreferment_BIGA]
    rw [round_int_eq ((900:ℚ) * 0.30) 270 (by norm_num) (by norm_num)]
    rw [round_int_eq (((270:ℤ):ℚ) * 0.50) 135 (by norm_num) (by norm_num)]
    rw [round_int_eq (((270:ℤ):ℚ) * 1.0 / 100 * 10) 27 (by norm_num) (by norm_num)]
    norm_num
  intro m f p hp
  have hflour : p.flour = (round (f * (3/10)) : ℚ) := by
    cases m with
    | DIRECT => simp [calculatePreferment] at hp
    | BIGA =>
        simp [calculatePreferment, CONSTANTS.BIGA_FLOUR_FRAC] at hp
        rw [← hp]
        norm_num
    | POOLISH =>
        simp [calculatePreferment, CONSTANTS.POOLISH_FLOUR_FRAC] at hp
        rw [← hp]
        norm_num
  rw [hflour]
  have habs := abs_sub_round (f * (3/10))
  rw [abs_sub_comm] at habs
  calc |(round (f * (3/10)) : ℚ) - 3/10 * f|
      = |(round (f * (3/10)) : ℚ) - f * (3/10)| := by ring_nf
    _ ≤ 1/2 := habs

/-- C4 (counterexample): within the documented ranges the claim's strictness
fails at the clamp: with `DIRECT`, `KITCHENAID`, hydration 70, room
temperatures 30 °C and 31 °C both yield a water temperature of 0 °C. -/
theorem calculateWaterTemp_clamp_collision :
    calculateWaterTemp ⟨Method.DIRECT, 500, 70, MixerType.KITCHENAID, 30, 1, PrefermentStorage.ROOM⟩ = 0
    ∧ calculateWaterTemp ⟨Method.DIRECT, 500, 70, MixerType.KITCHENAID, 31, 1, PrefermentStorage.ROOM⟩ = 0 := by
  constructor <;>
    · unfold calculateWaterTemp calculateFriction
      dsimp only
      norm_num [CONSTANTS.TARGET_DDT, CONSTANTS.HIGH_HYDRATION_THRESHOLD,
        CONSTANTS.FRICTION_MIXER, min_def, max_def]

/-- C4 (amended): for inputs differing only in `roomTemp`, with
`roomTemp1 < roomTemp2`, the water temperature for the warmer room is at most
(not always strictly below) the one for the colder room, for `DIRECT` as well
as `BIGA` and `POOLISH`; equality occurs when both land on the same clamp
bound. -/
theorem calculateWaterTemp_antitone (inputs : RecipeInputs) (T1 T2 : ℚ) (hT : T1 < T2) :
    calculateWaterTemp { inputs with roomTemp := T2 }
      ≤ calculateWaterTemp { inputs with roomTemp := T1 } := by
  rcases inputs with ⟨m, f, h, mx, T, s, ps⟩
  unfold calculateWaterTemp
  cases m <;> cases ps <;>
    · dsimp only
      apply round_mono'
      apply max_le_max le_rfl
      apply min_le_min le_rfl
      linarith

/-- Witness for the amended C4 at room temperatures 20 °C < 25 °C. -/
theorem calculateWaterTemp_antitone_witness :
    calculateWaterTemp ⟨Method.BIGA, 500, 70, MixerType.HAND, 25, 1, PrefermentStorage.ROOM⟩
      ≤ calculateWaterTemp ⟨Method.BIGA, 500, 70, MixerType.HAND, 20, 1, PrefermentStorage.ROOM⟩ :=
  calculateWaterTemp_antitone ⟨Method.BIGA, 500, 70, MixerType.HAND, 0, 1, PrefermentStorage.ROOM⟩
    20 25 (by norm_num)

/-- The `BIGA` yeast factor evaluates to 1 (`log10(1) = 0`). -/
theorem yeastFactor_BIGA_eq :
    (1:ℝ) + Real.logb 10
        ((CONSTANTS.BIGA_YEAST_PERCENT / CONSTANTS.BIGA_YEAST_PERCENT : ℚ):ℝ) * 0.5 = 1 := by
  norm_num [CONSTANTS.BIGA_YEAST_PERCENT, Real.logb_one]

/-- The `POOLISH` yeast factor evaluates to 1.5 (`log10(10) = 1`). -/
theorem yeastFactor_POOLISH_eq :
    (1:ℝ) + Real.logb 10
        ((CONSTANTS.BIGA_YEAST_PERCENT / CONSTANTS.POOLISH_YEAST_PERCENT : ℚ):ℝ) * 0.5
      = (3:ℝ)/2 := by
  have h10 : ((CONSTANTS.BIGA_YEAST_PERCENT / CONSTANTS.POOLISH_YEAST_PERCENT : ℚ):ℝ)
      = (10:ℝ) := by
    norm_num [CONSTANTS.BIGA_YEAST_PERCENT, CONSTANTS.POOLISH_YEAST_PERCENT]
  rw [h10, Real.logb_self_eq_one (by norm_num)]
  norm_num

/-- C9: with `FRIDGE` storage the preferment time is exactly the cap,
independent of the room temperature: 960 minutes for `BIGA` and 1440 minutes
for `POOLISH` (the storage temperature is fixed at 4 °C, and the uncapped
Q10 time `480 · 2^(5/2) · yeastFactor` always exceeds the cap). -/
theorem calculatePrefermentTime_fridge (T : ℚ) :
    calculatePrefermentTime Method.BIGA T PrefermentStorage.FRIDGE = 960
    ∧ calculatePrefermentTime Method.POOLISH T PrefermentStorage.FRIDGE = 1440 := by
  have h2 : (2:ℝ) ≤ (2:ℝ) ^ ((5:ℝ)/2) := by
    calc (2:ℝ) = (2:ℝ) ^ (1:ℝ) := (Real.rpow_one 2).symm
      _ ≤ (2:ℝ) ^ ((5:ℝ)/2) := Real.rpow_le_rpow_of_exponent_le (by norm_num) (by norm_num)
  have hexp : -(((CONSTANTS.FRIDGE_TEMP - CONSTANTS.TARGET_DDT : ℚ)):ℝ)
      / ((CONSTANTS.TEMP_COEFFICIENT : ℚ):ℝ) = (5:ℝ)/2 := by
    norm_num [CONSTANTS.FRIDGE_TEMP, CONSTANTS.TARGET_DDT, CONSTANTS.TEMP_COEFFICIENT]
  constructor
  · unfold calculatePrefermentTime
    dsimp only
    rw [if_pos rfl]
    rw [hexp]
    rw [yeastFactor_BIGA_eq]
    rw [if_pos rfl]
    have hcap : (((16 * 60 : ℚ)):ℝ) = (960:ℝ) := by norm_num
    rw [hcap]
    have hbase : ((CONSTANTS.BASE_PREFERMENT_TIME : ℚ):ℝ) = (480:ℝ) := by
      norm_num [CONSTANTS.BASE_PREFERMENT_TIME]
    rw [hbase]
    have hge : (960:ℝ) ≤ (480:ℝ) * ((2:ℝ) ^ ((5:ℝ)/2)) * 1 := by nlinarith [h2]
    rw [min_eq_right hge]
    simp
  · unfold calculatePrefermentTime
    dsimp only
    rw [if_neg (by simp)]
    rw [hexp]
    rw [yeastFactor_POOLISH_eq]
    rw [if_neg (by simp)]
    have hcap : (((24 * 60 : ℚ)):ℝ) = (1440:ℝ) := by norm_num
    rw [hcap]
    have hbase : ((CONSTANTS.BASE_PREFERMENT_TIME : ℚ):ℝ) = (480:ℝ) := by
      norm_num [CONSTANTS.BASE_PREFERMENT_TIME]
    rw [hbase]
    have hge : (1440:ℝ) ≤ (480:ℝ) * ((2:ℝ) ^ ((5:ℝ)/2)) * ((3:ℝ)/2) := by nlinarith [h2]
    rw [min_eq_right hge]
    simp

/-! Projection lemmas for `calculateRecipe` (all definitional). -/

theorem calculateRecipe_flourTotal (i : RecipeInputs) :
    (calculateRecipe i).flourTotal = i.totalFlour := rfl

theorem calculateRecipe_waterTotal (i : RecipeInputs) :
    (calculateRecipe i).waterTotal
      = (round (i.totalFlour * (i.targetHydration / 100)) : ℚ) := rfl

theorem calculateRecipe_salt (i : RecipeInputs) :
    (calculateRecipe i).salt
      = (round (i.totalFlour * (CONSTANTS.SALT_PERCENT / 100)) : ℚ) := rfl

theorem calculateRecipe_yeast (i : RecipeInputs) :
    (calculateRecipe i).yeast
      = calculateYeast i.totalFlour i.fermentationSpeed i.targetHydration := rfl

theorem calculateRecipe_preferment (i : RecipeInputs) :
    (calculateRecipe i).preferment = calculatePreferment i.method i.totalFlour := rfl

theorem calculateRecipe_estimatedBulkTime (i : RecipeInputs) :
    (calculateRecipe i).estimatedBulkTime
      = calculateBulkTime i.roomTemp i.fermentationSpeed i.targetHydration := rfl

theorem calculateRecipe_estimatedProofTime (i : RecipeInputs) :
    (calculateRecipe i).estimatedProofTime
      = calculateProofTime (calculateBulkTime i.roomTemp i.fermentationSpeed i.targetHydration) :=
  rfl

theorem calculateRecipe_prefermentTime (i : RecipeInputs) :
    (calculateRecipe i).prefermentTime
      = if i.method ≠ Method.DIRECT then
          calculatePrefermentTime i.method i.roomTemp i.prefermentStorage
        else 0 := rfl

theorem calculateRecipe_totalTime (i : RecipeInputs) :
    (calculateRecipe i).totalTime
      = calculateTotalTime
          (calculateBulkTime i.roomTemp i.fermentationSpeed i.targetHydration)
          (calculateProofTime (calculateBulkTime i.roomTemp i.fermentationSpeed i.targetHydration))
          (if i.method ≠ Method.DIRECT then
            calculatePrefermentTime i.method i.roomTemp i.prefermentStorage
          else 0)
          i.mixer
          (decide (i.targetHydration > CONSTANTS.HIGH_HYDRATION_THRESHOLD))
          (decide (i.method ≠ Method.DIRECT)) := rfl

theorem calculateRecipe_finalDough_none (i : RecipeInputs)
    (h : calculatePreferment i.method i.totalFlour = none) :
    (calculateRecipe i).finalDough
      = { flour := i.totalFlour
          water := (round (i.totalFlour * (i.targetHydration / 100)) : ℚ)
          salt := (round (i.totalFlour * (CONSTANTS.SALT_PERCENT / 100)) : ℚ)
          yeast := calculateYeast i.totalFlour i.fermentationSpeed i.targetHydration } := by
  unfold calculateRecipe
  dsimp only
  rw [h]

theorem calculateRecipe_finalDough_some (i : RecipeInputs) (p : Preferment)
    (h : calculatePreferment i.method i.totalFlour = some p) :
    (calculateRecipe i).finalDough
      = { flour := i.totalFlour - p.flour
          water := (round (i.totalFlour * (i.targetHydration / 100)) : ℚ) - p.water
          salt := (round (i.totalFlour * (CONSTANTS.SALT_PERCENT / 100)) : ℚ)
          yeast := max 0 ((round
            ((calculateYeast i.totalFlour i.fermentationSpeed i.targetHydration - p.yeast) * 10)
            : ℚ) / 10) } := by
  unfold calculateRecipe
  dsimp only
  rw [h]

/-! Non-negativity helpers. -/

theorem round_cast_nonneg {x : ℚ} (hx : 0 ≤ x) : (0:ℚ) ≤ ((round x : ℤ) : ℚ) := by
  exact_mod_cast round_nonneg' hx

theorem calculateYeast_nonneg {f s : ℚ} (h : ℚ) (hf : 0 ≤ f) (hs : 0 ≤ s) :
    0 ≤ calculateYeast f s h := by
  unfold calculateYeast
  dsimp only
  have hyp : (0:ℚ) ≤ CONSTANTS.FRESH_YEAST_BASE * s :=
    mul_nonneg (by norm_num [CONSTANTS.FRESH_YEAST_BASE]) hs
  split
  · apply div_nonneg _ (by norm_num)
    apply round_cast_nonneg
    have : (0:ℚ) ≤ CONSTANTS.FRESH_YEAST_BASE * s * (1 - CONSTANTS.HIGH_HYDRATION_YEAST_REDUCTION) :=
      mul_nonneg hyp (by norm_num [CONSTANTS.HIGH_HYDRATION_YEAST_REDUCTION])
    have := mul_nonneg (div_nonneg (mul_nonneg hf this) (by norm_num : (0:ℚ) ≤ 100))
      (by norm_num : (0:ℚ) ≤ 10)
    linarith
  · apply div_nonneg _ (by norm_num)
    apply round_cast_nonneg
    have := mul_nonneg (div_nonneg (mul_nonneg hf hyp) (by norm_num : (0:ℚ) ≤ 100))
      (by norm_num : (0:ℚ) ≤ 10)
    linarith

/-- Bounds on the preferment components: each is non-negative, the flour is at
most `0.3·f + 1/2`, the water is at most `flour + 1/2`. -/
theorem calculatePreferment_bounds {m : Method} {f : ℚ} {p : Preferment} (hf : 0 ≤ f)
    (hp : calculatePreferment m f = some p) :
    0 ≤ p.flour ∧ p.flour ≤ f * (3/10) + 1/2 ∧ 0 ≤ p.water ∧ p.water ≤ p.flour + 1/2
    ∧ 0 ≤ p.yeast := by
  have harg : (0:ℚ) ≤ f * 0.30 := mul_nonneg hf (by norm_num)
  cases m with
  | DIRECT => simp [calculatePreferment] at hp
  | BIGA =>
      rw [calculatePreferment_BIGA] at hp
      have hp' := (Option.some.injEq _ _).mp hp
      subst hp'
      refine ⟨round_cast_nonneg harg, ?_, ?_, ?_, ?_⟩
      · have hle := round_le_add_half (f * 0.30)
        have h03 : f * 0.30 = f * (3/10) := by norm_num
        rw [h03] at hle
        linarith
      · exact round_cast_nonneg (mul_nonneg (round_cast_nonneg harg) (by norm_num))
      · have h1 := round_le_add_half ((round (f * 0.30) : ℚ) * 0.50)
        have h2 : ((round (f * 0.30) : ℚ)) * 0.50 ≤ (round (f * 0.30) : ℚ) := by
          have := round_cast_nonneg harg
          linarith
        dsimp only
        linarith
      · refine div_nonneg (round_cast_nonneg ?_) (by norm_num)
        exact mul_nonneg
          (div_nonneg (mul_nonneg (round_cast_nonneg harg) (by norm_num)) (by norm_num))
          (by norm_num)
  | POOLISH =>
      rw [calculatePreferment_POOLISH] at hp
      have hp' := (Option.some.injEq _ _).mp hp
      subst hp'
      refine ⟨round_cast_nonneg harg, ?_, ?_, ?_, ?_⟩
      · have hle := round_le_add_half (f * 0.30)
        have h03 : f * 0.30 = f * (3/10) := by norm_num
        rw [h03] at hle
        linarith
      · exact round_cast_nonneg (mul_nonneg (round_cast_nonneg harg) (by norm_num))
      · have h1 := round_le_add_half ((round (f * 0.30) : ℚ) * 1.00)
        dsimp only
        norm_num at h1 ⊢
      · refine div_nonneg (round_cast_nonneg ?_) (by norm_num)
        exact mul_nonneg
          (div_nonneg (mul_nonneg (round_cast_nonneg harg) (by norm_num)) (by norm_num))
          (by norm_num)

theorem calculateBulkTime_nonneg (T : ℚ) {s : ℚ} (h : ℚ) (hs : 0 < s) :
    0 ≤ calculateBulkTime T s h := by
  unfold calculateBulkTime
  dsimp only
  apply round_nonneg'
  have h1 : (0:ℝ) < (2:ℝ) ^ (-(((T - CONSTANTS.TARGET_DDT : ℚ)):ℝ) / ((CONSTANTS.TEMP_COEFFICIENT : ℚ):ℝ)) :=
    Real.rpow_pos_of_pos (by norm_num) _
  have h2 : (0:ℚ) ≤ calculateHydrationFactor h :=
    le_trans (by norm_num) (calculateHydrationFactor_lb h)
  have h3 : (0:ℚ) ≤ 1 / s := by positivity
  have hbase : (0:ℝ) ≤ ((CONSTANTS.BASE_BULK_TIME : ℚ):ℝ) := by
    norm_num [CONSTANTS.BASE_BULK_TIME]
  refine mul_nonneg (mul_nonneg (mul_nonneg hbase h1.le) ?_) ?_
  · exact_mod_cast h2
  · exact_mod_cast h3

theorem calculateProofTime_nonneg (b : ℤ) : 0 ≤ calculateProofTime b :=
  le_trans (by norm_num [CONSTANTS.MIN_PROOF_TIME]) (le_max_left _ _)

theorem calculatePrefermentTime_nonneg (m : Method) (T : ℚ) (ps : PrefermentStorage) :
    0 ≤ calculatePrefermentTime m T ps := by
  have hrpos : ∀ y : ℝ, (0:ℝ) < (2:ℝ) ^ y := fun y => Real.rpow_pos_of_pos (by norm_num) y
  have hbase : (0:ℝ) ≤ ((CONSTANTS.BASE_PREFERMENT_TIME : ℚ):ℝ) := by
    norm_num [CONSTANTS.BASE_PREFERMENT_TIME]
  unfold calculatePrefermentTime
  cases m <;> cases ps <;>
    · dsimp only
      first
        | (rw [if_pos rfl, if_pos rfl, yeastFactor_BIGA_eq])
        | (rw [if_neg (by simp), if_neg (by simp), yeastFactor_POOLISH_eq])
        | (rw [if_pos rfl, yeastFactor_BIGA_eq])
        | (rw [if_neg (by simp), yeastFactor_POOLISH_eq])
      apply round_nonneg'
      first
        | (refine le_min ?_ (by norm_num)
           nlinarith [hrpos (-(((CONSTANTS.FRIDGE_TEMP - CONSTANTS.TARGET_DDT : ℚ)):ℝ)
             / ((CONSTANTS.TEMP_COEFFICIENT : ℚ):ℝ))])
        | nlinarith [hrpos (-(((T - CONSTANTS.TARGET_DDT : ℚ)):ℝ)
             / ((CONSTANTS.TEMP_COEFFICIENT : ℚ):ℝ))]

theorem calculateTotalTime_nonneg (b p q : ℤ) (mx : MixerType) (ih ii : Bool)
    (hb : 0 ≤ b) (hp : 0 ≤ p) (hq : 0 ≤ q) :
    0 ≤ calculateTotalTime b p q mx ih ii := by
  unfold calculateTotalTime
  cases mx <;> cases ih <;> cases ii <;>
    simp [CONSTANTS.STEP_DURATIONS.MIX_HAND, CONSTANTS.STEP_DURATIONS.MIX_MACHINE,
      CONSTANTS.STEP_DURATIONS.AUTOLYSE, CONSTANTS.STEP_DURATIONS.PRESHAPE_REST,
      CONSTANTS.STEP_DURATIONS.FINAL_SHAPE, CONSTANTS.STEP_DURATIONS.BAKE_COVERED,
      CONSTANTS.STEP_DURATIONS.BAKE_UNCOVERED, CONSTANTS.STEP_DURATIONS.COOL] <;>
    omega

/-- C3 (counterexample): outside the documented ranges masses can go
negative: with `POOLISH`, 500 g flour and 20 % hydration (hydration far below
the documented minimum of 60), the final dough's water is
`round(500·0.2) - round(round(500·0.3)·1.0) = 100 - 150 = -50 < 0`. -/
theorem calculateRecipe_negative_water :
    (calculateRecipe
        ⟨Method.POOLISH, 500, 20, MixerType.HAND, 22, 1, PrefermentStorage.ROOM⟩).finalDough.water
      < 0 := by
  have hp : calculatePreferment Method.POOLISH (500:ℚ) = some ⟨150, 150, 1/5⟩ := by
    rw [calculatePreferment_POOLISH]
    rw [round_int_eq ((500:ℚ) * 0.30) 150 (by norm_num) (by norm_num)]
    rw [round_int_eq (((150:ℤ):ℚ) * 1.00) 150 (by norm_num) (by norm_num)]
    rw [round_int_eq (((150:ℤ):ℚ) * 0.1 / 100 * 10) 2 (by norm_num) (by norm_num)]
    norm_num
  rw [calculateRecipe_finalDough_some _ _ hp]
  dsimp only
  rw [round_int_eq ((500:ℚ) * ((20:ℚ)/100)) 100 (by norm_num) (by norm_num)]
  norm_num

/-- C3 (amended): restricted to `totalFlour ≥ 100`, `targetHydration ≥ 60`
and `fermentationSpeed ≥ 0.5` (which covers all documented input ranges, but
not arbitrary out-of-range values), every mass in the `RecipeOutput` of
`calculateRecipe` is non-negative and every time field is a non-negative
integer (the time fields are integers by construction, having type `ℤ`). -/
theorem calculateRecipe_nonneg (inputs : RecipeInputs)
    (hf : 100 ≤ inputs.totalFlour) (hh : 60 ≤ inputs.targetHydration)
    (hs : 1/2 ≤ inputs.fermentationSpeed) :
    0 ≤ (calculateRecipe inputs).flourTotal
    ∧ 0 ≤ (calculateRecipe inputs).waterTotal
    ∧ 0 ≤ (calculateRecipe inputs).salt
    ∧ 0 ≤ (calculateRecipe inputs).yeast
    ∧ (∀ p : Preferment, (calculateRecipe inputs).preferment = some p →
        0 ≤ p.flour ∧ 0 ≤ p.water ∧ 0 ≤ p.yeast)
    ∧ 0 ≤ (calculateRecipe inputs).finalDough.flour
    ∧ 0 ≤ (calculateRecipe inputs).finalDough.water
    ∧ 0 ≤ (calculateRecipe inputs).finalDough.salt
    ∧ 0 ≤ (calculateRecipe inputs).finalDough.yeast
    ∧ 0 ≤ (calculateRecipe inputs).estimatedBulkTime
    ∧ 0 ≤ (calculateRecipe inputs).estimatedProofTime
    ∧ 0 ≤ (calculateRecipe inputs).prefermentTime
    ∧ 0 ≤ (calculateRecipe inputs).totalTime := by
  have hf0 : (0:ℚ) ≤ inputs.totalFlour := by linarith
  have hh0 : (0:ℚ) ≤ inputs.targetHydration := by linarith
  have hs0 : (0:ℚ) < inputs.fermentationSpeed := by linarith
  have hwt0 : (0:ℚ) ≤ inputs.totalFlour * (inputs.targetHydration / 100) :=
    mul_nonneg hf0 (div_nonneg hh0 (by norm_num))
  have hbulk := calculateBulkTime_nonneg inputs.roomTemp inputs.targetHydration hs0
  have hprooft := calculateProofTime_nonneg
    (calculateBulkTime inputs.roomTemp inputs.fermentationSpeed inputs.targetHydration)
  have hpreft : 0 ≤ (if inputs.method ≠ Method.DIRECT then
      calculatePrefermentTime inputs.method inputs.roomTemp inputs.prefermentStorage
    else 0) := by
    split
    · exact calculatePrefermentTime_nonneg _ _ _
    · exact le_refl 0
  refine ⟨?_, ?_, ?_, ?_, ?_, ?_, ?_, ?_, ?_, ?_, ?_, ?_, ?_⟩
  · rw [calculateRecipe_flourTotal]
    linarith
  · rw [calculateRecipe_waterTotal]
    exact round_cast_nonneg hwt0
  · rw [calculateRecipe_salt]
    exact round_cast_nonneg (mul_nonneg hf0 (by norm_num [CONSTANTS.SALT_PERCENT]))
  · rw [calculateRecipe_yeast]
    exact calculateYeast_nonneg _ hf0 hs0.le
  · intro p hp
    rw [calculateRecipe_preferment] at hp
    obtain ⟨h1, h2, h3, h4, h5⟩ := calculatePreferment_bounds hf0 hp
    exact ⟨h1, h3, h5⟩
  · cases hp : calculatePreferment inputs.method inputs.totalFlour with
    | none =>
        rw [calculateRecipe_finalDough_none _ hp]
        dsimp only
        linarith
    | some p =>
        rw [calculateRecipe_finalDough_some _ p hp]
        dsimp only
        obtain ⟨h1, h2, h3, h4, h5⟩ := calculatePreferment_bounds hf0 hp
        linarith
  · cases hp : calculatePreferment inputs.method inputs.totalFlour with
    | none =>
        rw [calculateRecipe_finalDough_none _ hp]
        dsimp only
        exact round_cast_nonneg hwt0
    | some p =>
        rw [calculateRecipe_finalDough_some _ p hp]
        dsimp only
        obtain ⟨h1, h2, h3, h4, h5⟩ := calculatePreferment_bounds hf0 hp
        have hlow := sub_half_lt_round (inputs.totalFlour * (inputs.targetHydration / 100))
        have hfh : inputs.totalFlour * 60 ≤ inputs.totalFlour * inputs.targetHydration :=
          mul_le_mul_of_nonneg_left hh hf0
        linarith
  · cases hp : calculatePreferment inputs.method inputs.totalFlour with
    | none =>
        rw [calculateRecipe_finalDough_none _ hp]
        dsimp only
        exact round_cast_nonneg (mul_nonneg hf0 (by norm_num [CONSTANTS.SALT_PERCENT]))
    | some p =>
        rw [calculateRecipe_finalDough_some _ p hp]
        dsimp only
        exact round_cast_nonneg (mul_nonneg hf0 (by norm_num [CONSTANTS.SALT_PERCENT]))
  · cases hp : calculatePreferment inputs.method inputs.totalFlour with
    | none =>
        rw [calculateRecipe_finalDough_none _ hp]
        dsimp only
        exact calculateYeast_nonneg _ hf0 hs0.le
    | some p =>
        rw [calculateRecipe_finalDough_some _ p hp]
        dsimp only
        exact le_max_left 0 _
  · rw [calculateRecipe_estimatedBulkTime]
    exact hbulk
  · rw [calculateRecipe_estimatedProofTime]
    exact hprooft
  · rw [calculateRecipe_prefermentTime]
    exact hpreft
  · rw [calculateRecipe_totalTime]
    exact calculateTotalTime_nonneg _ _ _ _ _ _ hbulk hprooft hpreft

/-- Witness for the amended C3 at an in-range input
(`BIGA`, 500 g, 70 %, hand mixer, 22 °C, speed 1, fridge storage). -/
theorem calculateRecipe_nonneg_witness :
    0 ≤ (calculateRecipe
        ⟨Method.BIGA, 500, 70, MixerType.HAND, 22, 1, PrefermentStorage.FRIDGE⟩).flourTotal
    ∧ 0 ≤ (calculateRecipe
        ⟨Method.BIGA, 500, 70, MixerType.HAND, 22, 1, PrefermentStorage.FRIDGE⟩).waterTotal
    ∧ 0 ≤ (calculateRecipe
        ⟨Method.BIGA, 500, 70, MixerType.HAND, 22, 1, PrefermentStorage.FRIDGE⟩).salt
    ∧ 0 ≤ (calculateRecipe
        ⟨Method.BIGA, 500, 70, MixerType.HAND, 22, 1, PrefermentStorage.FRIDGE⟩).yeast
    ∧ (∀ p : Preferment, (calculateRecipe
        ⟨Method.BIGA, 500, 70, MixerType.HAND, 22, 1, PrefermentStorage.FRIDGE⟩).preferment
          = some p → 0 ≤ p.flour ∧ 0 ≤ p.water ∧ 0 ≤ p.yeast)
    ∧ 0 ≤ (calculateRecipe
        ⟨Method.BIGA, 500, 70, MixerType.HAND, 22, 1, PrefermentStorage.FRIDGE⟩).finalDough.flour
    ∧ 0 ≤ (calculateRecipe
        ⟨Method.BIGA, 500, 70, MixerType.HAND, 22, 1, PrefermentStorage.FRIDGE⟩).finalDough.water
    ∧ 0 ≤ (calculateRecipe
        ⟨Method.BIGA, 500, 70, MixerType.HAND, 22, 1, PrefermentStorage.FRIDGE⟩).finalDough.salt
    ∧ 0 ≤ (calculateRecipe
        ⟨Method.BIGA, 500, 70, MixerType.HAND, 22, 1, PrefermentStorage.FRIDGE⟩).finalDough.yeast
    ∧ 0 ≤ (calculateRecipe
        ⟨Method.BIGA, 500, 70, MixerType.HAND, 22, 1, PrefermentStorage.FRIDGE⟩).estimatedBulkTime
    ∧ 0 ≤ (calculateRecipe
        ⟨Method.BIGA, 500, 70, MixerType.HAND, 22, 1, PrefermentStorage.FRIDGE⟩).estimatedProofTime
    ∧ 0 ≤ (calculateRecipe
        ⟨Method.BIGA, 500, 70, MixerType.HAND, 22, 1, PrefermentStorage.FRIDGE⟩).prefermentTime
    ∧ 0 ≤ (calculateRecipe
        ⟨Method.BIGA, 500, 70, MixerType.HAND, 22, 1, PrefermentStorage.FRIDGE⟩).totalTime :=
  calculateRecipe_nonneg
    ⟨Method.BIGA, 500, 70, MixerType.HAND, 22, 1, PrefermentStorage.FRIDGE⟩
    (by norm_num) (by norm_num) (by norm_num)

/-- C8: with `targetHydration = 80` (> 75, the high-hydration branch) the
generated step list always contains a step titled exactly `Autolyse`, a step
titled exactly `Bassinage`, and a step whose title contains the substring
`Coil Fold`, for every method, mixer and output. -/
theorem generateSteps_high_hydration_titles (inputs : RecipeInputs) (output : RecipeOutput)
    (h80 : inputs.targetHydration = 80) :
    "Autolyse" ∈ (generateSteps inputs output).map Step.title
    ∧ "Bassinage" ∈ (generateSteps inputs output).map Step.title
    ∧ ∃ t ∈ (generateSteps inputs output).map Step.title,
        ∃ a b : String, t = a ++ "Coil Fold" ++ b := by
  rcases inputs with ⟨m, f, h, mx, T, s, ps⟩
  dsimp only at h80
  subst h80
  have hhh : (80:ℚ) > CONSTANTS.HIGH_HYDRATION_THRESHOLD := by
    norm_num [CONSTANTS.HIGH_HYDRATION_THRESHOLD]
  unfold generateSteps
  dsimp only
  rw [if_pos hhh, if_pos hhh]
  have hcf : ∃ a b : String,
      toString "Coil Fold " ++ toString (1:ℕ) ++ toString "" = a ++ "Coil Fold" ++ b :=
    ⟨"", " 1", by decide⟩
  cases m <;> cases hp : output.preferment <;>
    · simp [addStep]
      first
        | exact Or.inr (Or.inr (Or.inr (Or.inr (Or.inl hcf))))
        | exact Or.inr (Or.inr (Or.inr (Or.inr (Or.inr (Or.inl hcf)))))

/-- A concrete 80 %-hydration input used to witness C8. -/
def sampleInputs80 : RecipeInputs :=
  ⟨Method.DIRECT, 500, 80, MixerType.HAND, 22, 1, PrefermentStorage.ROOM⟩

/-- A concrete recipe output used to witness C8. -/
def sampleOutput80 : RecipeOutput :=
  { flourTotal := 500
    waterTotal := 400
    salt := 10
    yeast := 6.8
    preferment := none
    finalDough := { flour := 500, water := 400, salt := 10, yeast := 6.8 }
    calculatedWaterTemp := 24
    estimatedBulkTime := 98
    estimatedProofTime := 49
    prefermentTime := 0
    totalTime := 323 }

/-- Witness for C8 at the concrete 80 %-hydration input. -/
theorem generateSteps_high_hydration_titles_witness :
    "Autolyse" ∈ (generateSteps sampleInputs80 sampleOutput80).map Step.title
    ∧ "Bassinage" ∈ (generateSteps sampleInputs80 sampleOutput80).map Step.title
    ∧ ∃ t ∈ (generateSteps sampleInputs80 sampleOutput80).map Step.title,
        ∃ a b : String, t = a ++ "Coil Fold" ++ b :=
  generateSteps_high_hydration_titles sampleInputs80 sampleOutput80 rfl

set_option maxRecDepth 8000 in
set_option synthInstance.maxSize 4000 in
/-- C10: the number of generated steps depends only on the two booleans
`hydration > 75` and `method ≠ DIRECT with a preferment present`: 12 for
standard-hydration direct, 13 for standard-hydration indirect, 17 for
high-hydration direct, 18 for high-hydration indirect; the step ids are
exactly `step-1 … step-n` in order, hence pairwise distinct. -/
theorem generateSteps_length_ids (inputs : RecipeInputs) (output : RecipeOutput) :
    (generateSteps inputs output).length
        = (if inputs.targetHydration > (75:ℚ) then 17 else 12)
          + (if inputs.method ≠ Method.DIRECT ∧ output.preferment.isSome then 1 else 0)
    ∧ (generateSteps inputs output).map Step.id
        = (List.range ((if inputs.targetHydration > (75:ℚ) then 17 else 12)
            + (if inputs.method ≠ Method.DIRECT ∧ output.preferment.isSome then 1 else 0))).map
            (fun k => "step-" ++ toString (k + 1))
    ∧ ((generateSteps inputs output).map Step.id).Nodup := by
  rcases inputs with ⟨m, f, h, mx, T, s, ps⟩
  unfold generateSteps
  dsimp only
  by_cases hh : h > (75:ℚ) <;>
    cases m <;> cases hp : output.preferment <;> cases mx <;>
      · simp [addStep, hh, CONSTANTS.HIGH_HYDRATION_THRESHOLD]
        decide

end Crumb
